import Mathlib

/-!
Shallow embedding of the vilt-oauth-connector-oauth2 mock OAuth2 server.

Source layout:
  * `src/unnamed/part_000`  — the routed protected controller variant (namespace `P0`
    below) followed by `controllers/authController.js` (`issueToken` below).
  * `src/controllers/protectedController.js` — a parallel protected controller
    variant (namespace `PC` below).
  * `src/controllers/adminController.js` — admin endpoints (namespace `Admin`),
    followed by `index.js` (routing; not modelled).

JavaScript conventions modelled explicitly:
  * strings that may be `undefined`/`null` are `Option String`; the JS falsy test
    `!s` on a string is `none` or `some ""`;
  * `Date.parse` of a stored expiry is `Option (Option Int)`:
    `none` = field absent (JS falsy, `expMs = 0`), `some none` = present but
    unparseable (`NaN`), `some (some ms)` = parseable to `ms` milliseconds;
  * `crypto.randomBytes(...)`/`Date.now()`/`crypto.randomUUID()` are passed in as
    explicit parameters (`newTok`, `now`, `fresh`, `genId`);
  * the Mongo collection is a `List ClientRecord`; `findOne` is first match,
    `updateOne` updates the first match, upsert appends a document synthesized
    from the equality filter when nothing matches.
-/

/-- JS `String.prototype.startsWith`, modelled on the character list. -/
def strStartsWith (s pre : String) : Bool := pre.data.isPrefixOf s.data

/-- JS `String.prototype.slice(n)` for ASCII strings (drops `n` characters). -/
def strDrop (s : String) (n : Nat) : String := String.mk (s.data.drop n)

/-- Whitespace characters stripped by JS `String.prototype.trim`. -/
def isJsWS (c : Char) : Bool := c = ' ' || c = '\t' || c = '\n' || c = '\r'

/-- JS `String.prototype.trim`. -/
def strTrim (s : String) : String :=
  String.mk (((s.data.dropWhile isJsWS).reverse.dropWhile isJsWS).reverse)

/-- JS `String.prototype.toLowerCase` for ASCII strings. -/
def strToLower (s : String) : String := String.mk (s.data.map Char.toLower)

/-- Does `l` contain `sub` as a contiguous run (JS `String.prototype.includes`)? -/
def listHasInfix (l sub : List Char) : Bool :=
  sub.isPrefixOf l ||
    match l with
    | [] => false
    | _ :: t => listHasInfix t sub

/-- JS `String.prototype.includes`. -/
def strIncludes (s sub : String) : Bool := listHasInfix s.data sub.data

/-- JS falsy test `!s` for a possibly-undefined string. -/
def isFalsyO (o : Option String) : Bool :=
  match o with
  | none => true
  | some s => s = ""

/-- JS truthy test for a possibly-undefined string. -/
def isTruthyO (o : Option String) : Bool := !(isFalsyO o)

/-- JS `a || b` for a possibly-undefined string with a string default. -/
def orElseStr (o : Option String) (d : String) : String :=
  match o with
  | none => d
  | some s => if s = "" then d else s

/-- JS `x && String(x).trim()` followed by a falsy test: `none` when the value is
absent, empty, or trims to empty, otherwise the trimmed string. -/
def truthyTrim (o : Option String) : Option String :=
  match o with
  | none => none
  | some s => if s = "" then none else (if strTrim s = "" then none else some (strTrim s))

/-- One entry of the `issuedTokens` ledger: `{token, issuedAt, expiresAt, active}`.
Timestamps are milliseconds since epoch (the ISO strings of the source, parsed). -/
structure LedgerEntry where
  token : String
  issuedAt : Int
  expiresAt : Int
  active : Bool
deriving DecidableEq, Repr

/-- A session sub-record (only the fields protected handlers branch on). -/
structure Session where
  sessionId : String
  status : String
deriving DecidableEq, Repr

/-- An instructor sub-record (only the fields protected handlers branch on). -/
structure Instructor where
  instructorId : String
  email : Option String
  firstName : Option String
  lastName : Option String
  status : String
deriving DecidableEq, Repr

/-- One document of the `clients` collection. `tokenExpiresAt`: `none` = absent,
`some none` = present but unparseable, `some (some ms)` = parses to `ms`.
`nextTokenTtlSeconds`: `none` = absent, `some none` = present but not a finite
number, `some (some v)` = the finite number `v`. -/
structure ClientRecord where
  clientId : String
  clientSecret : String
  createdAt : Option Int := none
  currentToken : Option String := none
  tokenExpiresAt : Option (Option Int) := none
  tokenType : Option String := none
  scope : Option String := none
  issuedTokens : List LedgerEntry := []
  nextTokenTtlSeconds : Option (Option Int) := none
  tokenHits : Nat := 0
  tokenRotations : Nat := 0
  perEndpointUsage : List (String × Nat) := []
  sessions : List Session := []
  instructors : List Instructor := []
  lastSessionId : Option String := none
deriving DecidableEq, Repr

/-- The `clients` collection. -/
abbrev Store := List ClientRecord

/-- Mongo equality filter `{clientId, clientSecret}`. -/
def pairMatch (cid sec : String) (r : ClientRecord) : Bool :=
  r.clientId = cid && r.clientSecret = sec

/-- Mongo `updateOne` without upsert: apply `f` to the first record matching `p`. -/
def updateFirstP (p : ClientRecord → Bool) (f : ClientRecord → ClientRecord) :
    Store → Store
  | [] => []
  | r :: rs => if p r then f r :: rs else r :: updateFirstP p f rs

/-- A document freshly synthesized by an upsert from the filter `{clientId, clientSecret}`. -/
def blankDoc (cid sec : String) : ClientRecord := { clientId := cid, clientSecret := sec }

/-- Mongo `updateOne` with `{upsert: true}` on the filter matched by `p`: update the
first match, or insert `f ins0` where `ins0` is the filter-synthesized document. -/
def upsertFirstP (p : ClientRecord → Bool) (f : ClientRecord → ClientRecord)
    (ins0 : ClientRecord) (l : Store) : Store :=
  match l.find? p with
  | some _ => updateFirstP p f l
  | none => l ++ [f ins0]

/-- Mongo `$inc {"perEndpointUsage.<k>": 1}` on the usage map. -/
def incUsage (k : String) : List (String × Nat) → List (String × Nat)
  | [] => [(k, 1)]
  | (k', n) :: t => if k' = k then (k', n + 1) :: t else (k', n) :: incUsage k t

/-- JS expiry test of `validateBearerToken`:
`expMs = client.tokenExpiresAt ? Date.parse(client.tokenExpiresAt) : 0;`
`!Number.isFinite(expMs) || Date.now() > expMs`. `true` means rejected as expired. -/
def expiredB (e : Option (Option Int)) (now : Int) : Bool :=
  match e with
  | none => decide (0 < now)
  | some none => true
  | some (some ms) => decide (ms < now)

/-- Result of `validateBearerToken`: the JS `1` passthrough, the `{db, coll, client}`
context, or a written HTTP rejection `(status, code, message)`. -/
inductive AuthResult where
  | passthrough
  | ctx (client : ClientRecord)
  | rejected (status : Nat) (code : Nat) (message : String)
deriving DecidableEq, Repr

/-- `findClientByToken` (identical in both controller variants): first by
`currentToken`, then by ledger membership `issuedTokens.token`. -/
def findClientByToken (store : Store) (t : String) : Option ClientRecord :=
  if t = "" then none
  else
    match store.find? (fun r => r.currentToken = some t) with
    | some d => some d
    | none => store.find? (fun r => r.issuedTokens.any (fun e => e.token = t))

/-- The `hasLoadTesting` test of the `part_000` variant: `clientId` or
`clientSecret` contains "loadtesting" case-insensitively (with the JS truthiness
guards on each field; both are always present strings in the key model). -/
def hasLoadTesting (c : ClientRecord) : Bool :=
  (!(c.clientId = "") && strIncludes (strToLower c.clientId) "loadtesting") ||
  (!(c.clientSecret = "") && strIncludes (strToLower c.clientSecret) "loadtesting")

/- Namespace for src/controllers/protectedController.js (the strict variant). -/
namespace PC

/-- Token-level core of `validateBearerToken` (strict variant): store lookup,
`invalid_token` 40102, expiry 40103, then the strict non-current rejection 40104. -/
def authToken (store : Store) (now : Int) (t : String) : AuthResult :=
  match findClientByToken store t with
  | none => .rejected 401 40102 "invalid_token"
  | some client =>
    match client.currentToken with
    | none => .rejected 401 40102 "invalid_token"
    | some c =>
      if c = "" then .rejected 401 40102 "invalid_token"
      else if expiredB client.tokenExpiresAt now then .rejected 401 40103 "token_expired"
      else if t ≠ c then .rejected 401 40104 "invalid_token"
      else .ctx client

/-- `validateBearerToken` of protectedController.js. -/
def validateBearerToken (store : Store) (now : Int) (auth : Option String) : AuthResult :=
  match auth with
  | none => .passthrough
  | some a =>
    if a = "" || strStartsWith a "Basic" then .passthrough
    else if !(strStartsWith a "Bearer ") then .rejected 401 40101 "missing_authorization"
    else authToken store now (strTrim (strDrop a 7))

end PC

/- Namespace for the part_000 protected controller variant (the routed one). -/
namespace P0

/-- Token-level core of `validateBearerToken` (part_000 variant): hardcoded
load-test bypass literals, store lookup, `invalid_token` 40102, `hasLoadTesting`
bypass, expiry 40103 — and no strict current-token equality check. -/
def authToken (store : Store) (now : Int) (t : String) : AuthResult :=
  if t = "HKWjGyT3CthKw8jFqxrYIsdeJ2yL2PkQECEoK2BW0VU" ∨ t = "loadtest_token_12345" then
    .passthrough
  else
    match findClientByToken store t with
    | none => .rejected 401 40102 "invalid_token"
    | some client =>
      match client.currentToken with
      | none => .rejected 401 40102 "invalid_token"
      | some c =>
        if c = "" then .rejected 401 40102 "invalid_token"
        else if hasLoadTesting client then .passthrough
        else if expiredB client.tokenExpiresAt now then .rejected 401 40103 "token_expired"
        else .ctx client

/-- `validateBearerToken` of part_000. -/
def validateBearerToken (store : Store) (now : Int) (auth : Option String) : AuthResult :=
  match auth with
  | none => .passthrough
  | some a =>
    if a = "" || strStartsWith a "Basic" then .passthrough
    else if !(strStartsWith a "Bearer ") then .rejected 401 40101 "missing_authorization"
    else authToken store now (strTrim (strDrop a 7))

end P0

/-- Request fields read by `issueToken` (`param` merges body and query; the merged
value is modelled directly). -/
structure TokenReq where
  client_id : Option String := none
  client_secret : Option String := none
  grant_type : Option String := none
  scope : Option String := none
deriving DecidableEq, Repr

/-- Response of the token endpoint. -/
inductive TResp where
  | ok (access_token : String) (token_type : String) (expires_in : Int) (scope : String)
  | err (status : Nat) (error : String)
deriving DecidableEq, Repr

/-- TTL selection of authController.js:
`Number.isFinite(ttlCandidate) && ttlCandidate > 0 ? ttlCandidate : fallback`. -/
def ttlSelect (cand : Option (Option Int)) (fallback : Int) : Int :=
  match cand with
  | some (some v) => if 0 < v then v else fallback
  | _ => fallback

/-- The reuse test of authController.js:
`doc?.currentToken && Number.isFinite(expMs) && now < expMs` where
`expMs = doc?.tokenExpiresAt ? Date.parse(doc.tokenExpiresAt) : 0`. -/
def stillValidB (doc : ClientRecord) (now : Int) : Bool :=
  isTruthyO doc.currentToken &&
    (match doc.tokenExpiresAt with
     | some (some ms) => decide (now < ms)
     | some none => false
     | none => decide (now < 0))

/-- Milliseconds value of the parsed `tokenExpiresAt` on the reuse path
(the field is present and parseable whenever `stillValidB` holds). -/
def expMsOf (doc : ClientRecord) : Int :=
  match doc.tokenExpiresAt with
  | some (some ms) => ms
  | _ => 0

/-- The metrics `$inc {tokenHits: 1, "perEndpointUsage.token": 1}` update. -/
def metricsF (r : ClientRecord) : ClientRecord :=
  { r with tokenHits := r.tokenHits + 1, perEndpointUsage := incUsage "token" r.perEndpointUsage }

/-- First rotation update: the pipeline that maps every ledger entry to
`$mergeObjects ["$$t", {active: false}]` (or `[]` when not an array). -/
def deactF (r : ClientRecord) : ClientRecord :=
  { r with issuedTokens := r.issuedTokens.map (fun e => { e with active := false }) }

/-- Second rotation update: set the new current token, expiry, type and scope,
`$inc tokenRotations`, `$push` the new active ledger entry. -/
def rotF (newTok : String) (now newExp : Int) (scopeIn : String) (r : ClientRecord) :
    ClientRecord :=
  { r with currentToken := some newTok, tokenExpiresAt := some (some newExp),
           tokenType := some "Bearer", scope := some scopeIn,
           tokenRotations := r.tokenRotations + 1,
           issuedTokens := r.issuedTokens ++ [⟨newTok, now, newExp, true⟩] }

/-- The `$setOnInsert {createdAt, tokenType: "Bearer", scope: scopeIn}` document
created by the ensure-client-doc upsert of authController.js. -/
def setOnInsertDoc (cid sec : String) (now : Int) (scopeIn : String) : ClientRecord :=
  { clientId := cid, clientSecret := sec, createdAt := some now,
    tokenType := some "Bearer", scope := some scopeIn }

/-- `issueToken` of controllers/authController.js. `hasMongo` is
`process.env.MONGODB_URI` being set; `now` is `Date.now()` in ms; `newTok` is the
`crypto.randomBytes(32).toString("base64url")` value. Returns the new store and
the JSON response. -/
def issueToken (hasMongo : Bool) (store : Store) (now : Int) (newTok : String)
    (r : TokenReq) : Store × TResp :=
  let grantType := r.grant_type.getD "client_credentials"
  let scopeIn := r.scope.getD "default"
  if isFalsyO r.client_id || isFalsyO r.client_secret then
    (store, .err 400 "invalid_client")
  else if grantType ≠ "client_credentials" then
    (store, .err 400 "unsupported_grant_type")
  else
    let cid := r.client_id.getD ""
    let sec := r.client_secret.getD ""
    if !hasMongo then
      -- Stateless fallback: reads nextTokenTtlSeconds, writes nothing.
      let ttlSec :=
        match store.find? (pairMatch cid sec) with
        | some d => ttlSelect d.nextTokenTtlSeconds 1200
        | none => ttlSelect none 1200
      (store, .ok newTok "Bearer" ttlSec scopeIn)
    else
      -- Ensure the client doc exists ($setOnInsert on upsert, then re-find);
      -- `ensured` is the store after the lazy insert paired with the found doc.
      let ensured : Store × ClientRecord :=
        match store.find? (pairMatch cid sec) with
        | some d => (store, d)
        | none => (store ++ [setOnInsertDoc cid sec now scopeIn],
                   setOnInsertDoc cid sec now scopeIn)
      let store1 := ensured.1
      let doc := ensured.2
      -- Metrics (unconditional, upsert matches the ensured doc).
      let store2 := updateFirstP (pairMatch cid sec) metricsF store1
      if stillValidB doc now then
        let expMs := expMsOf doc
        let remaining := max 1 ((expMs - now) / 1000)
        (store2, .ok (doc.currentToken.getD "") (orElseStr doc.tokenType "Bearer")
          remaining (orElseStr doc.scope scopeIn))
      else
        let ttlSec := ttlSelect doc.nextTokenTtlSeconds 120
        let newExp := now + ttlSec * 1000
        let store3 := updateFirstP (pairMatch cid sec) deactF store2
        let store4 := updateFirstP (pairMatch cid sec) (rotF newTok now newExp scopeIn) store3
        (store4, .ok newTok "Bearer" ttlSec scopeIn)

/-- The request fields that the protected and admin handlers read. -/
structure Request where
  authorization : Option String := none
  correlationid : Option String := none
  bodySessionId : Option String := none
  paramSessionId : Option String := none
  bodyInstructorId : Option String := none
  bodyEmail : Option String := none
  bodyOldEmail : Option String := none
  bodyNewEmail : Option String := none
  bodyFirstName : Option String := none
  bodyLastName : Option String := none
  bodyIsActive : Option Bool := none
deriving DecidableEq, Repr

/-- A protected-endpoint JSON response: HTTP status, a tag naming which success
envelope shape was used ("ok", "attendance", "launch", "extopts"), or the error
envelope's `{code, message}`, plus the envelope's `correlationId`. -/
inductive PResp where
  | ok (status : Nat) (tag : String) (correlationId : String)
  | err (status : Nat) (code : Nat) (message : String) (correlationId : String)
deriving DecidableEq, Repr

/-- The correlationId carried by a protected-endpoint envelope. -/
def respCorrelation : PResp → String
  | .ok _ _ c => c
  | .err _ _ _ c => c

/-- part_000 `getCorrelationId`: `req.headers["correlationid"] || uuid()`,
with the fresh uuid passed in as `fresh`. -/
def getCorrelationId (req : Request) (fresh : String) : String :=
  orElseStr req.correlationid fresh

namespace P0

/-- part_000 `ok(req)` success envelope. -/
def ok (req : Request) (fresh : String) : PResp := .ok 200 "ok" (getCorrelationId req fresh)

/-- part_000 `okAttendance(req)` success envelope. -/
def okAttendance (req : Request) (fresh : String) : PResp :=
  .ok 200 "attendance" (getCorrelationId req fresh)

/-- part_000 `okLaunchSession(req)` success envelope. -/
def okLaunchSession (req : Request) (fresh : String) : PResp :=
  .ok 200 "launch" (getCorrelationId req fresh)

/-- part_000 `okExtendedOptions(req)` success envelope. -/
def okExtendedOptions (req : Request) (fresh : String) : PResp :=
  .ok 200 "extopts" (getCorrelationId req fresh)

/-- part_000 `err(req, code, message)` envelope with its HTTP status. -/
def err (req : Request) (fresh : String) (status code : Nat) (message : String) : PResp :=
  .err status code message (getCorrelationId req fresh)

/-- Update the first session whose id matches `sid` to the given status. -/
def setSessionStatus (sid : Option String) (st : String) : List Session → List Session
  | [] => []
  | s :: t =>
    if some s.sessionId = sid then { s with status := st } :: t
    else s :: setSessionStatus sid st t

/-- POST /api/session (part_000 `createSession`). `genId` models the
`Date.now().toString(36)` suffix of a generated session id. -/
def createSession (store : Store) (now : Int) (req : Request) (fresh genId : String) :
    Store × PResp :=
  match validateBearerToken store now req.authorization with
  | .rejected s c m => (store, err req fresh s c m)
  | .passthrough => (store, ok req fresh)
  | .ctx client =>
    let sessionId := (truthyTrim req.bodySessionId).getD
      ("sess_" ++ client.clientId ++ "_" ++ genId)
    let store' := upsertFirstP (pairMatch client.clientId client.clientSecret)
      (fun r => { r with perEndpointUsage := incUsage "createsession" r.perEndpointUsage,
                         lastSessionId := some sessionId,
                         sessions := r.sessions ++ [⟨sessionId, "active"⟩] })
      (blankDoc client.clientId client.clientSecret) store
    (store', ok req fresh)

/-- PUT /api/session/:SessionId (part_000 `updateSession`): the SessionId-required
and matchedCount-0 checks are commented out in the source, so every authenticated
or passthrough call answers 200. -/
def updateSession (store : Store) (now : Int) (req : Request) (fresh : String) :
    Store × PResp :=
  match validateBearerToken store now req.authorization with
  | .rejected s c m => (store, err req fresh s c m)
  | .passthrough => (store, ok req fresh)
  | .ctx client =>
    let sid := truthyTrim req.paramSessionId
    let store' := updateFirstP
      (fun r => pairMatch client.clientId client.clientSecret r &&
        r.sessions.any (fun s => some s.sessionId = sid))
      (fun r => { r with sessions := setSessionStatus sid "updated" r.sessions,
                         perEndpointUsage := incUsage "updatesession" r.perEndpointUsage })
      store
    (store', ok req fresh)

/-- DELETE /api/session/:SessionId (part_000 `cancelSession`): SessionId check runs
before the basic-auth branch; matchedCount 0 yields 404. -/
def cancelSession (store : Store) (now : Int) (req : Request) (fresh : String) :
    Store × PResp :=
  match validateBearerToken store now req.authorization with
  | .rejected s c m => (store, err req fresh s c m)
  | .passthrough =>
    match truthyTrim req.paramSessionId with
    | none => (store, err req fresh 400 40020 "SessionId is required")
    | some _ => (store, ok req fresh)
  | .ctx client =>
    match truthyTrim req.paramSessionId with
    | none => (store, err req fresh 400 40020 "SessionId is required")
    | some sid =>
      let p := fun r => pairMatch client.clientId client.clientSecret r &&
        r.sessions.any (fun s => s.sessionId = sid)
      if (store.find? p).isSome then
        let store' := updateFirstP p
          (fun r => { r with sessions := setSessionStatus (some sid) "canceled" r.sessions,
                             perEndpointUsage := incUsage "cancelsession" r.perEndpointUsage })
          store
        (store', ok req fresh)
      else (store, err req fresh 404 40420 "session_not_found")

/-- POST /api/instructor (part_000 `addInstructor`): instructor id is always
generated; the DB write is skipped on passthrough; both paths answer 200. -/
def addInstructor (store : Store) (now : Int) (req : Request) (fresh genId : String) :
    Store × PResp :=
  match validateBearerToken store now req.authorization with
  | .rejected s c m => (store, err req fresh s c m)
  | .passthrough => (store, ok req fresh)
  | .ctx client =>
    let instructorId := "inst_" ++ client.clientId ++ "_" ++ genId
    let store' := upsertFirstP (pairMatch client.clientId client.clientSecret)
      (fun r => { r with perEndpointUsage := incUsage "addinstructor" r.perEndpointUsage,
                         instructors := r.instructors ++
                           [⟨instructorId, req.bodyEmail, req.bodyFirstName,
                             req.bodyLastName, "active"⟩] })
      (blankDoc client.clientId client.clientSecret) store
    (store', ok req fresh)

/-- Update the first instructor whose email matches `old`. -/
def setInstructorByEmail (old : Option String) (req : Request) :
    List Instructor → List Instructor
  | [] => []
  | i :: t =>
    if i.email = old then
      { i with email := req.bodyNewEmail, firstName := req.bodyFirstName,
               lastName := req.bodyLastName,
               status := if req.bodyIsActive = some true then "active" else "inactive" } :: t
    else i :: setInstructorByEmail old req t

/-- PUT /api/instructor (part_000 `updateInstructor`): matched by
`instructors.email = body.OldEmail`; matchedCount 0 yields 404; passthrough 200. -/
def updateInstructor (store : Store) (now : Int) (req : Request) (fresh : String) :
    Store × PResp :=
  match validateBearerToken store now req.authorization with
  | .rejected s c m => (store, err req fresh s c m)
  | .passthrough => (store, ok req fresh)
  | .ctx client =>
    let p := fun r => pairMatch client.clientId client.clientSecret r &&
      r.instructors.any (fun i => i.email = req.bodyOldEmail)
    if (store.find? p).isSome then
      let store' := updateFirstP p
        (fun r => { r with instructors := setInstructorByEmail req.bodyOldEmail req r.instructors,
                           perEndpointUsage := incUsage "updateinstructor" r.perEndpointUsage })
        store
      (store', ok req fresh)
    else (store, err req fresh 404 40430 "instructor_not_found")

/-- GET /api/session/:SessionId/attendees (part_000 `getAttendance`): usage counter
on the context path (failures non-fatal), hardcoded attendance payload always. -/
def getAttendance (store : Store) (now : Int) (req : Request) (fresh : String) :
    Store × PResp :=
  match validateBearerToken store now req.authorization with
  | .rejected s c m => (store, err req fresh s c m)
  | .passthrough => (store, okAttendance req fresh)
  | .ctx client =>
    let store' := upsertFirstP (pairMatch client.clientId client.clientSecret)
      (fun r => { r with perEndpointUsage := incUsage "getattendance" r.perEndpointUsage })
      (blankDoc client.clientId client.clientSecret) store
    (store', okAttendance req fresh)

/-- GET /api/session/:SessionId/user/:email/url (part_000 `launchSession`). -/
def launchSession (store : Store) (now : Int) (req : Request) (fresh : String) :
    Store × PResp :=
  match validateBearerToken store now req.authorization with
  | .rejected s c m => (store, err req fresh s c m)
  | .passthrough => (store, okLaunchSession req fresh)
  | .ctx client =>
    let store' := upsertFirstP (pairMatch client.clientId client.clientSecret)
      (fun r => { r with perEndpointUsage := incUsage "launchsession" r.perEndpointUsage })
      (blankDoc client.clientId client.clientSecret) store
    (store', okLaunchSession req fresh)

/-- GET /api/session/:SessionId/extendedoptions (part_000 `getExtendedOptions`). -/
def getExtendedOptions (store : Store) (now : Int) (req : Request) (fresh : String) :
    Store × PResp :=
  match validateBearerToken store now req.authorization with
  | .rejected s c m => (store, err req fresh s c m)
  | .passthrough => (store, okExtendedOptions req fresh)
  | .ctx client =>
    let store' := upsertFirstP (pairMatch client.clientId client.clientSecret)
      (fun r => { r with perEndpointUsage := incUsage "getextendedoptions" r.perEndpointUsage })
      (blankDoc client.clientId client.clientSecret) store
    (store', okExtendedOptions req fresh)

end P0

namespace PC

/-- protectedController.js `ok()`: the envelope's correlationId is always a fresh
`uuid()`; the request's correlationid header is never read. -/
def ok (fresh : String) : PResp := .ok 200 "ok" fresh

/-- protectedController.js `err(code, message)` envelope with its HTTP status. -/
def err (fresh : String) (status code : Nat) (message : String) : PResp :=
  .err status code message fresh

/-- POST /api/createsession (protectedController.js `createSession`). -/
def createSession (store : Store) (now : Int) (req : Request) (fresh genId : String) :
    Store × PResp :=
  match validateBearerToken store now req.authorization with
  | .rejected s c m => (store, err fresh s c m)
  | .passthrough => (store, ok fresh)
  | .ctx client =>
    let sessionId := (truthyTrim req.bodySessionId).getD
      ("sess_" ++ client.clientId ++ "_" ++ genId)
    let store' := upsertFirstP (pairMatch client.clientId client.clientSecret)
      (fun r => { r with perEndpointUsage := incUsage "createsession" r.perEndpointUsage,
                         lastSessionId := some sessionId,
                         sessions := r.sessions ++ [⟨sessionId, "active"⟩] })
      (blankDoc client.clientId client.clientSecret) store
    (store', ok fresh)

/-- POST /api/updatesession (protectedController.js `updateSession`).
`const { coll, client } = ctx;` runs before the basic-auth passthrough is handled,
so on passthrough `coll` is `undefined` and `coll.updateOne` throws inside the
`try`, which the `catch` converts to the 500 `update_session_failed` envelope. -/
def updateSession (store : Store) (now : Int) (req : Request) (fresh : String) :
    Store × PResp :=
  match validateBearerToken store now req.authorization with
  | .rejected s c m => (store, err fresh s c m)
  | .passthrough =>
    match truthyTrim req.bodySessionId with
    | none => (store, err fresh 400 40010 "SessionId is required")
    | some _ => (store, err fresh 500 50011 "update_session_failed")
  | .ctx client =>
    match truthyTrim req.bodySessionId with
    | none => (store, err fresh 400 40010 "SessionId is required")
    | some sid =>
      let p := fun r => pairMatch client.clientId client.clientSecret r &&
        r.sessions.any (fun s => s.sessionId = sid)
      if (store.find? p).isSome then
        let store' := updateFirstP p
          (fun r => { r with sessions := P0.setSessionStatus (some sid) "updated" r.sessions,
                             perEndpointUsage := incUsage "updatesession" r.perEndpointUsage })
          store
        (store', ok fresh)
      else (store, err fresh 404 40410 "session_not_found")

/-- POST /api/cancelsession (protectedController.js `cancelSession`): same
unguarded destructuring as `updateSession`, so passthrough ends in the 500
`cancel_session_failed` envelope once SessionId is present. -/
def cancelSession (store : Store) (now : Int) (req : Request) (fresh : String) :
    Store × PResp :=
  match validateBearerToken store now req.authorization with
  | .rejected s c m => (store, err fresh s c m)
  | .passthrough =>
    match truthyTrim req.bodySessionId with
    | none => (store, err fresh 400 40020 "SessionId is required")
    | some _ => (store, err fresh 500 50012 "cancel_session_failed")
  | .ctx client =>
    match truthyTrim req.bodySessionId with
    | none => (store, err fresh 400 40020 "SessionId is required")
    | some sid =>
      let p := fun r => pairMatch client.clientId client.clientSecret r &&
        r.sessions.any (fun s => s.sessionId = sid)
      if (store.find? p).isSome then
        let store' := updateFirstP p
          (fun r => { r with sessions := P0.setSessionStatus (some sid) "canceled" r.sessions,
                             perEndpointUsage := incUsage "cancelsession" r.perEndpointUsage })
          store
        (store', ok fresh)
      else (store, err fresh 404 40420 "session_not_found")

/-- POST /api/addinstructor (protectedController.js `addInstructor`): guarded by
`ctx != 1`, so passthrough answers 200 without touching the store. -/
def addInstructor (store : Store) (now : Int) (req : Request) (fresh genId : String) :
    Store × PResp :=
  match validateBearerToken store now req.authorization with
  | .rejected s c m => (store, err fresh s c m)
  | .passthrough => (store, ok fresh)
  | .ctx client =>
    let instructorId := (truthyTrim req.bodyInstructorId).getD
      ("inst_" ++ client.clientId ++ "_" ++ genId)
    let store' := upsertFirstP (pairMatch client.clientId client.clientSecret)
      (fun r => { r with perEndpointUsage := incUsage "addinstructor" r.perEndpointUsage,
                         instructors := r.instructors ++
                           [⟨instructorId, req.bodyEmail, req.bodyFirstName,
                             req.bodyLastName, "active"⟩] })
      (blankDoc client.clientId client.clientSecret) store
    (store', ok fresh)

/-- Update the first instructor whose id matches. -/
def setInstructorById (iid : String) (req : Request) :
    List Instructor → List Instructor
  | [] => []
  | i :: t =>
    if i.instructorId = iid then
      { i with email := req.bodyEmail, firstName := req.bodyFirstName,
               lastName := req.bodyLastName, status := "updated" } :: t
    else i :: setInstructorById iid req t

/-- POST /api/updateinstructor (protectedController.js `updateInstructor`):
guarded by `ctx != 1`; on the context path InstructorId is required and matched. -/
def updateInstructor (store : Store) (now : Int) (req : Request) (fresh : String) :
    Store × PResp :=
  match validateBearerToken store now req.authorization with
  | .rejected s c m => (store, err fresh s c m)
  | .passthrough => (store, ok fresh)
  | .ctx client =>
    match truthyTrim req.bodyInstructorId with
    | none => (store, err fresh 400 40030 "InstructorId is required")
    | some iid =>
      let p := fun r => pairMatch client.clientId client.clientSecret r &&
        r.instructors.any (fun i => i.instructorId = iid)
      if (store.find? p).isSome then
        let store' := updateFirstP p
          (fun r => { r with instructors := setInstructorById iid req r.instructors,
                             perEndpointUsage := incUsage "updateinstructor" r.perEndpointUsage })
          store
        (store', ok fresh)
      else (store, err fresh 404 40430 "instructor_not_found")

end PC

namespace Admin

/-- An admin endpoint response (HTTP status and the message or error string). -/
inductive AResp where
  | ok (status : Nat) (message : String)
  | err (status : Nat) (error : String)
deriving DecidableEq, Repr

/-- The `$set {clientId, clientSecret}` + `$unset {...}` update of POST /admin/reset.
The `$unset` list names tokenHits, tokenRotations, tokenExpiresAt, perEndpointUsage,
currentToken, issuedTokens, sessions, instructors and lastSessionId — and does NOT
name nextTokenTtlSeconds, scope, tokenType or createdAt, which therefore survive. -/
def resetDoc (r : ClientRecord) : ClientRecord :=
  { r with tokenHits := 0, tokenRotations := 0, tokenExpiresAt := none,
           perEndpointUsage := [], currentToken := none, issuedTokens := [],
           sessions := [], instructors := [], lastSessionId := none }

/-- POST /admin/reset (adminController.js `reset`). -/
def reset (hasMongo : Bool) (store : Store) (client_id client_secret : Option String) :
    Store × AResp :=
  if isFalsyO client_id || isFalsyO client_secret then
    (store, .err 400 "client_id and client_secret are required")
  else if !hasMongo then
    (store, .ok 200 "MongoDB not configured; nothing to reset.")
  else
    let cid := client_id.getD ""
    let sec := client_secret.getD ""
    let matched := (store.find? (pairMatch cid sec)).isSome
    (updateFirstP (pairMatch cid sec) resetDoc store,
     .ok 200 (if matched then "reset ok" else "no data to reset"))

end Admin

/-! ### Helper lemmas about the store primitives -/

/-- If `f` does not change whether a record matches `p`, updating the first match
composes with `find?` as a `map`. -/
lemma find?_updateFirstP (p : ClientRecord → Bool) (f : ClientRecord → ClientRecord)
    (hf : ∀ r, p (f r) = p r) (l : Store) :
    (updateFirstP p f l).find? p = (l.find? p).map f := by
  induction l with
  | nil => simp [updateFirstP]
  | cons r rs ih =>
    by_cases h : p r
    · simp [updateFirstP, h, List.find?_cons_of_pos, hf]
    · simp [updateFirstP, h, List.find?_cons_of_neg, ih]

/-- Every record of an updated store is an old record or the image of one. -/
lemma mem_updateFirstP (p : ClientRecord → Bool) (f : ClientRecord → ClientRecord)
    {r' : ClientRecord} {l : Store} (h : r' ∈ updateFirstP p f l) :
    r' ∈ l ∨ ∃ r ∈ l, r' = f r := by
  induction l with
  | nil => simp [updateFirstP] at h
  | cons r rs ih =>
    by_cases hp : p r
    · simp only [updateFirstP, hp, if_pos] at h
      rcases List.mem_cons.mp h with h | h
      · exact Or.inr ⟨r, List.mem_cons_self .., h⟩
      · exact Or.inl (List.mem_cons_of_mem _ h)
    · simp only [updateFirstP, hp, if_neg, Bool.false_eq_true, not_false_iff] at h
      rcases List.mem_cons.mp h with h | h
      · exact Or.inl (h ▸ List.mem_cons_self ..)
      · rcases ih h with h | ⟨r₀, hr₀, he⟩
        · exact Or.inl (List.mem_cons_of_mem _ h)
        · exact Or.inr ⟨r₀, List.mem_cons_of_mem _ hr₀, he⟩

/-- Two successive first-match updates under a `p`-stable first update compose. -/
lemma updateFirstP_comp (p : ClientRecord → Bool) (f g : ClientRecord → ClientRecord)
    (hf : ∀ r, p (f r) = p r) (l : Store) :
    updateFirstP p g (updateFirstP p f l) = updateFirstP p (fun r => g (f r)) l := by
  induction l with
  | nil => simp [updateFirstP]
  | cons r rs ih =>
    by_cases h : p r
    · simp [updateFirstP, h, hf]
    · simp [updateFirstP, h, ih]

/-- On the reuse path (record found, current token truthy, expiry parseable and
strictly future) `issueToken` only applies the metrics update and answers with the
stored token. -/
lemma issueToken_reuse (store : Store) (now : Int) (tk : String) (cid sec scReq : String)
    (rec : ClientRecord) (tok : String) (expMs : Int)
    (hcid : cid ≠ "") (hsec : sec ≠ "")
    (hfind : store.find? (pairMatch cid sec) = some rec)
    (hct : rec.currentToken = some tok) (htok : tok ≠ "")
    (hexp : rec.tokenExpiresAt = some (some expMs))
    (hnow : now < expMs) :
    issueToken true store now tk ⟨some cid, some sec, some "client_credentials", some scReq⟩ =
      (updateFirstP (pairMatch cid sec) metricsF store,
        .ok tok (orElseStr rec.tokenType "Bearer") (max 1 ((expMs - now) / 1000))
          (orElseStr rec.scope scReq)) := by
  simp [issueToken, isFalsyO, hcid, hsec, hfind, stillValidB, isTruthyO, hct, htok, hexp,
    expMsOf, hnow]

/-- On the rotate path (record found, reuse test false) `issueToken` applies the
metrics, deactivate-all and set-new-token updates to the record and answers with
the fresh token. -/
lemma issueToken_rotate (store : Store) (now : Int) (tk : String) (cid sec scReq : String)
    (rec : ClientRecord)
    (hcid : cid ≠ "") (hsec : sec ≠ "")
    (hfind : store.find? (pairMatch cid sec) = some rec)
    (hnv : stillValidB rec now = false) :
    issueToken true store now tk ⟨some cid, some sec, some "client_credentials", some scReq⟩ =
      (updateFirstP (pairMatch cid sec)
        (fun r => rotF tk now (now + ttlSelect rec.nextTokenTtlSeconds 120 * 1000) scReq
          (deactF (metricsF r))) store,
        .ok tk "Bearer" (ttlSelect rec.nextTokenTtlSeconds 120) scReq) := by
  have hm : ∀ r, pairMatch cid sec (metricsF r) = pairMatch cid sec r := fun _ => rfl
  have hmd : ∀ r, pairMatch cid sec (deactF (metricsF r)) = pairMatch cid sec r := fun _ => rfl
  simp [issueToken, isFalsyO, hcid, hsec, hfind, hnv,
    updateFirstP_comp _ _ _ hm, updateFirstP_comp _ _ _ hmd]

/-! ### Claims -/

/-- C2: for a valid (clientId, clientSecret) pair whose record has a current token
with a parseable, strictly future expiry, two sequential client_credentials
`issueToken` calls within the TTL both return the stored token, the record's
token_type and stored scope, with expires_in the floor of the remaining whole
seconds (minimum 1); no rotation happens: tokenRotations and the issuedTokens
ledger are unchanged. -/
theorem c2_reuse_within_ttl (store : Store) (now1 now2 : Int) (tk1 tk2 : String)
    (cid sec scReq : String) (rec : ClientRecord) (tok tt sc : String) (expMs : Int)
    (hcid : cid ≠ "") (hsec : sec ≠ "")
    (hfind : store.find? (pairMatch cid sec) = some rec)
    (hct : rec.currentToken = some tok) (htok : tok ≠ "")
    (hexp : rec.tokenExpiresAt = some (some expMs))
    (h1 : now1 < expMs) (h2 : now2 < expMs)
    (htt : rec.tokenType = some tt) (htt2 : tt ≠ "")
    (hsc : rec.scope = some sc) (hsc2 : sc ≠ "") :
    (issueToken true store now1 tk1
        ⟨some cid, some sec, some "client_credentials", some scReq⟩).2 =
      TResp.ok tok tt (max 1 ((expMs - now1) / 1000)) sc ∧
    (issueToken true
        (issueToken true store now1 tk1
          ⟨some cid, some sec, some "client_credentials", some scReq⟩).1 now2 tk2
        ⟨some cid, some sec, some "client_credentials", some scReq⟩).2 =
      TResp.ok tok tt (max 1 ((expMs - now2) / 1000)) sc ∧
    ∃ rec',
      (issueToken true
          (issueToken true store now1 tk1
            ⟨some cid, some sec, some "client_credentials", some scReq⟩).1 now2 tk2
          ⟨some cid, some sec, some "client_credentials", some scReq⟩).1.find?
          (pairMatch cid sec) = some rec' ∧
      rec'.tokenRotations = rec.tokenRotations ∧ rec'.issuedTokens = rec.issuedTokens := by
  have e1 := issueToken_reuse store now1 tk1 cid sec scReq rec tok expMs hcid hsec hfind hct
    htok hexp h1
  have hfind1 : (updateFirstP (pairMatch cid sec) metricsF store).find? (pairMatch cid sec) =
      some (metricsF rec) := by
    rw [find?_updateFirstP (pairMatch cid sec) metricsF (fun _ => rfl) store, hfind]; rfl
  have e2 := issueToken_reuse _ now2 tk2 cid sec scReq (metricsF rec) tok expMs hcid hsec
    hfind1 hct htok hexp h2
  have hfind2 : (updateFirstP (pairMatch cid sec) metricsF
      (updateFirstP (pairMatch cid sec) metricsF store)).find? (pairMatch cid sec) =
      some (metricsF (metricsF rec)) := by
    rw [find?_updateFirstP (pairMatch cid sec) metricsF (fun _ => rfl), hfind1]; rfl
  refine ⟨?_, ?_, ?_⟩
  · simp [e1, orElseStr, htt, hsc, htt2, hsc2]
  · simp [e1, e2, orElseStr, htt, hsc, htt2, hsc2, metricsF]
  · exact ⟨metricsF (metricsF rec), by simp [e1, e2, hfind2], rfl, rfl⟩

/-- Witness for C2 at a concrete store: the stored token is returned by both calls
with decreasing remaining TTL and no ledger change. -/
theorem c2_witness :
    (issueToken true
        [({ clientId := "c", clientSecret := "s", currentToken := some "tok",
            tokenExpiresAt := some (some 10000), tokenType := some "Bearer",
            scope := some "default" } : ClientRecord)] 1000 "t1"
        ⟨some "c", some "s", some "client_credentials", some "default"⟩).2 =
      TResp.ok "tok" "Bearer" 9 "default" ∧
    (issueToken true
        (issueToken true
          [({ clientId := "c", clientSecret := "s", currentToken := some "tok",
              tokenExpiresAt := some (some 10000), tokenType := some "Bearer",
              scope := some "default" } : ClientRecord)] 1000 "t1"
          ⟨some "c", some "s", some "client_credentials", some "default"⟩).1 2000 "t2"
        ⟨some "c", some "s", some "client_credentials", some "default"⟩).2 =
      TResp.ok "tok" "Bearer" 8 "default" := by
  have h := c2_reuse_within_ttl
    [({ clientId := "c", clientSecret := "s", currentToken := some "tok",
        tokenExpiresAt := some (some 10000), tokenType := some "Bearer",
        scope := some "default" } : ClientRecord)]
    1000 2000 "t1" "t2" "c" "s" "default"
    ({ clientId := "c", clientSecret := "s", currentToken := some "tok",
       tokenExpiresAt := some (some 10000), tokenType := some "Bearer",
       scope := some "default" } : ClientRecord)
    "tok" "Bearer" "default" 10000
    (by decide) (by decide) (by decide) (by decide) (by decide) (by decide)
    (by decide) (by decide) (by decide) (by decide) (by decide) (by decide)
  exact ⟨h.1, h.2.1⟩

/-- C3: a valid stateful `issueToken` call that finds the current token absent, or
its expiry missing, unparseable or not strictly future, rotates: ttlSec is the
stored nextTokenTtlSeconds when finite and positive, else 120 (stateful path);
the new token is returned with expires_in = ttlSec, the record gets the new
current token with expiry now + ttlSec, every prior ledger entry is deactivated,
a fresh active entry is appended and tokenRotations grows by exactly 1; on the
stateless path the fallback TTL is 1200 instead. -/
theorem c3_rotation (store : Store) (now : Int) (tk : String) (cid sec scReq : String)
    (rec : ClientRecord)
    (hcid : cid ≠ "") (hsec : sec ≠ "")
    (hfind : store.find? (pairMatch cid sec) = some rec)
    (hnow : 0 ≤ now)
    (htrig : rec.currentToken = none ∨ rec.tokenExpiresAt = none ∨
      rec.tokenExpiresAt = some none ∨
      ∃ ms, rec.tokenExpiresAt = some (some ms) ∧ ms ≤ now) :
    (issueToken true store now tk
        ⟨some cid, some sec, some "client_credentials", some scReq⟩).2 =
      TResp.ok tk "Bearer" (ttlSelect rec.nextTokenTtlSeconds 120) scReq ∧
    (∃ rec',
      (issueToken true store now tk
          ⟨some cid, some sec, some "client_credentials", some scReq⟩).1.find?
          (pairMatch cid sec) = some rec' ∧
      rec'.currentToken = some tk ∧
      rec'.tokenExpiresAt =
        some (some (now + ttlSelect rec.nextTokenTtlSeconds 120 * 1000)) ∧
      rec'.issuedTokens = rec.issuedTokens.map (fun e => { e with active := false }) ++
        [⟨tk, now, now + ttlSelect rec.nextTokenTtlSeconds 120 * 1000, true⟩] ∧
      rec'.tokenRotations = rec.tokenRotations + 1) ∧
    (issueToken false store now tk
        ⟨some cid, some sec, some "client_credentials", some scReq⟩).2 =
      TResp.ok tk "Bearer" (ttlSelect rec.nextTokenTtlSeconds 1200) scReq := by
  have hnv : stillValidB rec now = false := by
    rcases htrig with h | h | h | ⟨ms, h, hms⟩
    · simp [stillValidB, isTruthyO, isFalsyO, h]
    · simp [stillValidB, h, show ¬ (now < 0) by omega]
    · simp [stillValidB, h]
    · simp [stillValidB, h, show ¬ (now < ms) by omega]
  have e := issueToken_rotate store now tk cid sec scReq rec hcid hsec hfind hnv
  refine ⟨by simp [e], ?_, ?_⟩
  · refine ⟨rotF tk now (now + ttlSelect rec.nextTokenTtlSeconds 120 * 1000) scReq
      (deactF (metricsF rec)), ?_, rfl, rfl, ?_, rfl⟩
    · simp only [e]
      rw [find?_updateFirstP (pairMatch cid sec)
        (fun r => rotF tk now (now + ttlSelect rec.nextTokenTtlSeconds 120 * 1000) scReq
          (deactF (metricsF r))) (fun _ => rfl), hfind]
      rfl
    · simp [rotF, deactF, metricsF]
  · simp [issueToken, isFalsyO, hcid, hsec, hfind]

/-- Witness for C3 at a concrete store: nextTokenTtlSeconds is absent so the
stateful fallback 120 and stateless fallback 1200 both apply. -/
theorem c3_witness :
    (issueToken true
        [({ clientId := "c", clientSecret := "s" } : ClientRecord)] 1000 "new"
        ⟨some "c", some "s", some "client_credentials", some "default"⟩).2 =
      TResp.ok "new" "Bearer" 120 "default" ∧
    (∃ rec',
      (issueToken true
          [({ clientId := "c", clientSecret := "s" } : ClientRecord)] 1000 "new"
          ⟨some "c", some "s", some "client_credentials", some "default"⟩).1.find?
          (pairMatch "c" "s") = some rec' ∧
      rec'.currentToken = some "new" ∧
      rec'.tokenExpiresAt = some (some 121000) ∧
      rec'.issuedTokens = [⟨"new", 1000, 121000, true⟩] ∧
      rec'.tokenRotations = 1) ∧
    (issueToken false
        [({ clientId := "c", clientSecret := "s" } : ClientRecord)] 1000 "new"
        ⟨some "c", some "s", some "client_credentials", some "default"⟩).2 =
      TResp.ok "new" "Bearer" 1200 "default" := by
  have h := c3_rotation [({ clientId := "c", clientSecret := "s" } : ClientRecord)]
    1000 "new" "c" "s" "default" ({ clientId := "c", clientSecret := "s" } : ClientRecord)
    (by decide) (by decide) (by decide) (by decide) (Or.inl rfl)
  exact h

/-- The per-record invariant of C6: at most one `issuedTokens` entry is active,
and an active entry's token equals the record's `currentToken`. -/
def ActiveInv (rec : ClientRecord) : Prop :=
  rec.issuedTokens.countP (fun e => e.active) ≤ 1 ∧
  ∀ e ∈ rec.issuedTokens, e.active = true → rec.currentToken = some e.token

/-- One call to the token endpoint: the request fields plus the ambient clock, the
generated random token and whether MONGODB_URI is configured. -/
structure TokenCall where
  req : TokenReq
  now : Int
  newTok : String
  hasMongo : Bool

/-- The store after a sequence of sequential `issueToken` calls. -/
def issueSeq (store : Store) (calls : List TokenCall) : Store :=
  calls.foldl (fun s c => (issueToken c.hasMongo s c.now c.newTok c.req).1) store

/-- The combined deactivate-all-then-set-new-token update leaves a record
satisfying the invariant whatever its previous state. -/
lemma activeInv_rot (tk : String) (now newExp : Int) (sc : String) (r : ClientRecord) :
    ActiveInv (rotF tk now newExp sc (deactF r)) := by
  refine ⟨?_, ?_⟩
  · simp only [rotF, deactF]
    rw [List.countP_append, List.countP_map]
    have h0 : r.issuedTokens.countP
        ((fun e => e.active) ∘ fun e : LedgerEntry => { e with active := false }) = 0 := by
      simp [Function.comp]
    simp [h0]
  · intro e he ha
    simp only [rotF, deactF] at he
    rcases List.mem_append.mp he with h1 | h1
    · rcases List.mem_map.mp h1 with ⟨x, _, rfl⟩
      simp at ha
    · simp only [List.mem_singleton] at h1
      subst h1
      rfl

/-- The metrics update touches neither the ledger nor the current token. -/
lemma activeInv_metricsF (r : ClientRecord) (h : ActiveInv r) : ActiveInv (metricsF r) := h

/-- A freshly inserted client doc has an empty ledger. -/
lemma activeInv_setOnInsertDoc (cid sec : String) (now : Int) (sc : String) :
    ActiveInv (setOnInsertDoc cid sec now sc) :=
  ⟨by simp [setOnInsertDoc], by simp [setOnInsertDoc]⟩

/-- Updating the first match with an invariant-preserving map keeps every record
of the store invariant. -/
lemma all_activeInv_updateFirstP (p : ClientRecord → Bool) (f : ClientRecord → ClientRecord)
    {l : Store} (h : ∀ r ∈ l, ActiveInv r) (hf : ∀ r, ActiveInv r → ActiveInv (f r)) :
    ∀ r ∈ updateFirstP p f l, ActiveInv r := by
  intro r hr
  rcases mem_updateFirstP p f hr with h1 | ⟨r0, hr0, rfl⟩
  · exact h r h1
  · exact hf r0 (h r0 hr0)

/-- Updating the first match with an unconditionally invariant map keeps every
record of the store invariant. -/
lemma all_activeInv_updateFirstP' (p : ClientRecord → Bool) (f : ClientRecord → ClientRecord)
    {l : Store} (h : ∀ r ∈ l, ActiveInv r) (hf : ∀ r, ActiveInv (f r)) :
    ∀ r ∈ updateFirstP p f l, ActiveInv r := by
  intro r hr
  rcases mem_updateFirstP p f hr with h1 | ⟨r0, _, rfl⟩
  · exact h r h1
  · exact hf r0

/-- A single `issueToken` call preserves the active-token invariant of every
record in the store. -/
lemma issueToken_preserves_activeInv (hm : Bool) (store : Store) (now : Int) (tk : String)
    (r : TokenReq) (h : ∀ rec ∈ store, ActiveInv rec) :
    ∀ rec ∈ (issueToken hm store now tk r).1, ActiveInv rec := by
  by_cases hfals : (isFalsyO r.client_id || isFalsyO r.client_secret) = true
  · simpa [issueToken, hfals] using h
  by_cases hg : r.grant_type.getD "client_credentials" = "client_credentials"
  swap
  · simpa [issueToken, hfals, hg] using h
  by_cases hmongo : hm = true
  swap
  · simp only [Bool.not_eq_true] at hmongo
    subst hmongo
    simpa [issueToken, hfals, hg] using h
  subst hmongo
  cases hfd : store.find? (pairMatch (r.client_id.getD "") (r.client_secret.getD "")) with
  | some d =>
    by_cases hv : stillValidB d now = true
    · simp only [issueToken, hfals, hg, hfd, hv]
      simp only [Bool.false_eq_true, if_false, if_true]
      exact all_activeInv_updateFirstP _ _ h activeInv_metricsF
    · simp only [Bool.not_eq_true] at hv
      simp only [issueToken, hfals, hg, hfd, hv]
      simp only [Bool.false_eq_true, if_false]
      rw [updateFirstP_comp (pairMatch (r.client_id.getD "") (r.client_secret.getD ""))
        deactF _ (fun _ => rfl)]
      exact all_activeInv_updateFirstP' _ _
        (all_activeInv_updateFirstP _ _ h activeInv_metricsF)
        (fun r0 => activeInv_rot _ _ _ _ r0)
  | none =>
    have hstore1 : ∀ rec ∈ store ++ [setOnInsertDoc (r.client_id.getD "")
        (r.client_secret.getD "") now (r.scope.getD "default")], ActiveInv rec := by
      intro rec hrec
      rcases List.mem_append.mp hrec with h1 | h1
      · exact h rec h1
      · simp only [List.mem_singleton] at h1
        subst h1
        exact activeInv_setOnInsertDoc _ _ _ _
    by_cases hv : stillValidB (setOnInsertDoc (r.client_id.getD "")
        (r.client_secret.getD "") now (r.scope.getD "default")) now = true
    · simp only [issueToken, hfals, hg, hfd, hv]
      simp only [Bool.false_eq_true, if_false, if_true]
      exact all_activeInv_updateFirstP _ _ hstore1 activeInv_metricsF
    · simp only [Bool.not_eq_true] at hv
      simp only [issueToken, hfals, hg, hfd, hv]
      simp only [Bool.false_eq_true, if_false]
      rw [updateFirstP_comp (pairMatch (r.client_id.getD "") (r.client_secret.getD ""))
        deactF _ (fun _ => rfl)]
      exact all_activeInv_updateFirstP' _ _
        (all_activeInv_updateFirstP _ _ hstore1 activeInv_metricsF)
        (fun r0 => activeInv_rot _ _ _ _ r0)

/-- C6: after any sequence of sequential `issueToken` calls starting from a store
whose records satisfy the invariant (e.g. the empty store), every record still has
at most one active `issuedTokens` entry, and an active entry's token equals the
record's `currentToken`: all prior entries are deactivated before the new active
entry is appended. -/
theorem c6_at_most_one_active (store0 : Store) (calls : List TokenCall)
    (h : ∀ rec ∈ store0, ActiveInv rec) :
    ∀ rec ∈ issueSeq store0 calls, ActiveInv rec := by
  induction calls generalizing store0 with
  | nil => simpa [issueSeq] using h
  | cons c cs ih =>
    have h1 := issueToken_preserves_activeInv c.hasMongo store0 c.now c.newTok c.req h
    simpa [issueSeq, List.foldl_cons] using ih _ h1

/-- Witness for C6: the record produced by one `issueToken` call on the empty
store satisfies the invariant. -/
theorem c6_witness :
    ActiveInv ({ clientId := "c", clientSecret := "s", createdAt := some 1000,
                 currentToken := some "t", tokenExpiresAt := some (some 121000),
                 tokenType := some "Bearer", scope := some "default",
                 issuedTokens := [⟨"t", 1000, 121000, true⟩],
                 nextTokenTtlSeconds := none, tokenHits := 1, tokenRotations := 1,
                 perEndpointUsage := [("token", 1)], sessions := [],
                 instructors := [], lastSessionId := none } : ClientRecord) :=
  c6_at_most_one_active [] [⟨⟨some "c", some "s", none, none⟩, 1000, "t", true⟩]
    (by simp) _ (by decide)

/-- C1 counterexample: in the part_000 authenticator, a token that sits in the
record's issuedTokens ledger but no longer equals currentToken still yields a full
authenticated client context when the record's current token is unexpired — it is
not rejected with 401. -/
theorem c1_counterexample :
    P0.authToken
      [({ clientId := "cid1", clientSecret := "sec1", currentToken := some "newtok",
          tokenExpiresAt := some (some 1000),
          issuedTokens := [⟨"oldtok", 0, 500, false⟩, ⟨"newtok", 500, 1000, true⟩] }
        : ClientRecord)] 600 "oldtok" =
    AuthResult.ctx
      ({ clientId := "cid1", clientSecret := "sec1", currentToken := some "newtok",
         tokenExpiresAt := some (some 1000),
         issuedTokens := [⟨"oldtok", 0, 500, false⟩, ⟨"newtok", 500, 1000, true⟩] }
        : ClientRecord) := by decide

/-- C1 (amended): in the strict authenticator of protectedController.js, a token
found only in some record's ledger and equal to no record's currentToken is always
rejected 401 with invalid_token (40102 or 40104) or token_expired (40103), and
never yields an authenticated context. -/
theorem c1_strict_rejects_rotated (store : Store) (now : Int) (t : String)
    (hmem : ∃ rec ∈ store, ∃ e ∈ rec.issuedTokens, e.token = t)
    (hnc : ∀ rec ∈ store, rec.currentToken ≠ some t) :
    PC.authToken store now t = .rejected 401 40102 "invalid_token" ∨
    PC.authToken store now t = .rejected 401 40103 "token_expired" ∨
    PC.authToken store now t = .rejected 401 40104 "invalid_token" := by
  by_cases ht : t = ""
  · subst ht
    left
    simp [PC.authToken, findClientByToken]
  · have h1 : store.find? (fun r => r.currentToken = some t) = none := by
      rw [List.find?_eq_none]
      intro x hx
      simp [hnc x hx]
    have h2 : (store.find? (fun r => r.issuedTokens.any (fun e => e.token = t))).isSome := by
      rw [List.find?_isSome]
      obtain ⟨rec, hrec, e, he, het⟩ := hmem
      refine ⟨rec, hrec, ?_⟩
      simp only [List.any_eq_true, decide_eq_true_eq]
      exact ⟨e, he, het⟩
    obtain ⟨rec, hrec⟩ := Option.isSome_iff_exists.mp h2
    have hmemrec : rec ∈ store := List.mem_of_find?_eq_some hrec
    have hfc : findClientByToken store t = some rec := by
      simp only [findClientByToken, ht, if_false, h1, hrec, ite_false]
    cases hct : rec.currentToken with
    | none => left; simp [PC.authToken, hfc, hct]
    | some c =>
      by_cases hc0 : c = ""
      · left; simp [PC.authToken, hfc, hct, hc0]
      · by_cases hex : expiredB rec.tokenExpiresAt now = true
        · right; left; simp [PC.authToken, hfc, hct, hc0, hex]
        · right; right
          have htc : t ≠ c := fun hcontra => (hnc rec hmemrec) (by rw [hct, hcontra])
          simp [PC.authToken, hfc, hct, hc0, hex, htc]

/-- Witness for C1 (amended) at a concrete store holding one rotated-away token. -/
theorem c1_witness :
    PC.authToken
      [({ clientId := "a", clientSecret := "b", currentToken := some "cur",
          tokenExpiresAt := some (some 1000),
          issuedTokens := [⟨"old", 0, 500, false⟩] } : ClientRecord)] 100 "old" =
      .rejected 401 40102 "invalid_token" ∨
    PC.authToken
      [({ clientId := "a", clientSecret := "b", currentToken := some "cur",
          tokenExpiresAt := some (some 1000),
          issuedTokens := [⟨"old", 0, 500, false⟩] } : ClientRecord)] 100 "old" =
      .rejected 401 40103 "token_expired" ∨
    PC.authToken
      [({ clientId := "a", clientSecret := "b", currentToken := some "cur",
          tokenExpiresAt := some (some 1000),
          issuedTokens := [⟨"old", 0, 500, false⟩] } : ClientRecord)] 100 "old" =
      .rejected 401 40104 "invalid_token" :=
  c1_strict_rejects_rotated _ 100 "old" (by decide) (by decide)

/-- C7 counterexample: the load-test literal is absent from every currentToken
and every ledger of the empty store, yet the part_000 authenticator answers
passthrough, not a 401 invalid_token rejection. -/
theorem c7_counterexample :
    P0.authToken [] 5 "loadtest_token_12345" = AuthResult.passthrough := by decide

/-- C7 (amended): a bearer token that is not one of the two load-test bypass
literals and equals neither any record's currentToken nor any ledger entry is
rejected by both authenticator variants with exactly 401 invalid_token (40102),
never a 500. -/
theorem c7_unknown_token_invalid (store : Store) (now : Int) (t : String)
    (hlit1 : t ≠ "HKWjGyT3CthKw8jFqxrYIsdeJ2yL2PkQECEoK2BW0VU")
    (hlit2 : t ≠ "loadtest_token_12345")
    (hnc : ∀ rec ∈ store, rec.currentToken ≠ some t)
    (hnl : ∀ rec ∈ store, ∀ e ∈ rec.issuedTokens, e.token ≠ t) :
    P0.authToken store now t = .rejected 401 40102 "invalid_token" ∧
    PC.authToken store now t = .rejected 401 40102 "invalid_token" := by
  have hfc : findClientByToken store t = none := by
    by_cases ht : t = ""
    · simp [findClientByToken, ht]
    · have h1 : store.find? (fun r => r.currentToken = some t) = none := by
        rw [List.find?_eq_none]
        intro x hx
        simp [hnc x hx]
      have h2 : store.find? (fun r => r.issuedTokens.any (fun e => e.token = t)) = none := by
        rw [List.find?_eq_none]
        intro x hx
        simp only [List.any_eq_true, decide_eq_true_eq, not_exists]
        intro e he
        exact hnl x hx e he.1 he.2
      simp [findClientByToken, ht, h1, h2]
  exact ⟨by simp [P0.authToken, hlit1, hlit2, hfc], by simp [PC.authToken, hfc]⟩

/-- Witness for C7 (amended) on a store with an unrelated current token and
ledger entry. -/
theorem c7_witness :
    P0.authToken
      [({ clientId := "a", clientSecret := "b", currentToken := some "cur",
          issuedTokens := [⟨"led", 0, 5, true⟩] } : ClientRecord)] 7 "nope" =
      .rejected 401 40102 "invalid_token" ∧
    PC.authToken
      [({ clientId := "a", clientSecret := "b", currentToken := some "cur",
          issuedTokens := [⟨"led", 0, 5, true⟩] } : ClientRecord)] 7 "nope" =
      .rejected 401 40102 "invalid_token" :=
  c7_unknown_token_invalid _ 7 "nope" (by decide) (by decide) (by decide) (by decide)

/-- C10: the Basic-scheme test of both authenticator variants is a bare prefix
check: any Authorization header value beginning with the five characters "Basic",
with no separator required, is treated as the passthrough and skips all token
checks, for every store. -/
theorem c10_basic_bare_startswith (a : String) (store : Store) (now : Int)
    (h : strStartsWith a "Basic" = true) :
    PC.validateBearerToken store now (some a) = AuthResult.passthrough ∧
    P0.validateBearerToken store now (some a) = AuthResult.passthrough := by
  exact ⟨by simp [PC.validateBearerToken, h], by simp [P0.validateBearerToken, h]⟩

/-- Witness for C10 at the separator-free headers "Basicabc" and
"BasicBearer x". -/
theorem c10_witness :
    strStartsWith "Basicabc" "Basic" = true ∧
    PC.validateBearerToken [] 0 (some "Basicabc") = AuthResult.passthrough ∧
    P0.validateBearerToken [] 0 (some "BasicBearer x") = AuthResult.passthrough :=
  ⟨by decide, (c10_basic_bare_startswith "Basicabc" [] 0 (by decide)).1,
    (c10_basic_bare_startswith "BasicBearer x" [] 0 (by decide)).2⟩

/-- C4 counterexample: the protectedController.js variant has no bypass
literals — its createSession consults the store for the load-test token and
rejects 401 invalid_token instead of returning its success response. -/
theorem c4_counterexample :
    PC.createSession [] 5 ({ authorization := some "Bearer loadtest_token_12345" } : Request)
      "f" "g" = ([], PResp.err 401 40102 "invalid_token" "f") := by decide

/-- C4 (amended): for every part_000 endpoint, a request whose Bearer token
trims to either fixed load-test literal is passthrough: the authenticator answers
passthrough for every store and clock, and each endpoint returns its success
envelope with the store untouched (cancelSession additionally requiring its
SessionId route parameter). -/
theorem c4_bypass_part000 (a t : String) (store : Store) (now : Int) (req : Request)
    (fresh genId : String)
    (hauth : req.authorization = some a)
    (hnb : strStartsWith a "Basic" = false)
    (hbr : strStartsWith a "Bearer " = true)
    (htok : strTrim (strDrop a 7) = t)
    (hlit : t = "HKWjGyT3CthKw8jFqxrYIsdeJ2yL2PkQECEoK2BW0VU" ∨ t = "loadtest_token_12345") :
    (∀ store2 now2, P0.authToken store2 now2 t = AuthResult.passthrough) ∧
    P0.createSession store now req fresh genId = (store, P0.ok req fresh) ∧
    P0.updateSession store now req fresh = (store, P0.ok req fresh) ∧
    (∀ sid, truthyTrim req.paramSessionId = some sid →
      P0.cancelSession store now req fresh = (store, P0.ok req fresh)) ∧
    P0.addInstructor store now req fresh genId = (store, P0.ok req fresh) ∧
    P0.updateInstructor store now req fresh = (store, P0.ok req fresh) ∧
    P0.getAttendance store now req fresh = (store, P0.okAttendance req fresh) ∧
    P0.launchSession store now req fresh = (store, P0.okLaunchSession req fresh) ∧
    P0.getExtendedOptions store now req fresh = (store, P0.okExtendedOptions req fresh) := by
  have hpass : ∀ store2 now2, P0.authToken store2 now2 t = AuthResult.passthrough := by
    intro s2 n2
    rcases hlit with rfl | rfl <;> simp [P0.authToken]
  have hv : ∀ s2 n2, P0.validateBearerToken s2 n2 req.authorization = AuthResult.passthrough := by
    intro s2 n2
    have ha0 : ¬ a = "" := by
      intro h0
      subst h0
      exact absurd hbr (by decide)
    rw [hauth]
    simp [P0.validateBearerToken, ha0, hnb, hbr, htok, hpass]
  refine ⟨hpass, ?_, ?_, ?_, ?_, ?_, ?_, ?_, ?_⟩
  · simp [P0.createSession, hv]
  · simp [P0.updateSession, hv]
  · intro sid hsid
    simp [P0.cancelSession, hv, hsid]
  · simp [P0.addInstructor, hv]
  · simp [P0.updateInstructor, hv]
  · simp [P0.getAttendance, hv]
  · simp [P0.launchSession, hv]
  · simp [P0.getExtendedOptions, hv]

/-- Witness for C4 (amended) with the literal load-test header on the empty
store. -/
theorem c4_witness :
    P0.createSession [] 5
      ({ authorization := some "Bearer loadtest_token_12345",
         paramSessionId := some "s1" } : Request) "f" "g" =
      ([], P0.ok ({ authorization := some "Bearer loadtest_token_12345",
                    paramSessionId := some "s1" } : Request) "f") ∧
    P0.cancelSession [] 5
      ({ authorization := some "Bearer loadtest_token_12345",
         paramSessionId := some "s1" } : Request) "f" =
      ([], P0.ok ({ authorization := some "Bearer loadtest_token_12345",
                    paramSessionId := some "s1" } : Request) "f") ∧
    P0.getAttendance [] 5
      ({ authorization := some "Bearer loadtest_token_12345",
         paramSessionId := some "s1" } : Request) "f" =
      ([], P0.okAttendance ({ authorization := some "Bearer loadtest_token_12345",
                              paramSessionId := some "s1" } : Request) "f") := by
  have h := c4_bypass_part000 "Bearer loadtest_token_12345" "loadtest_token_12345" [] 5
    ({ authorization := some "Bearer loadtest_token_12345",
       paramSessionId := some "s1" } : Request) "f" "g" rfl (by decide) (by decide)
    (by decide) (Or.inr rfl)
  exact ⟨h.2.1, h.2.2.2.1 "s1" (by decide), h.2.2.2.2.2.2.1⟩

/-- C5: in protectedController.js, updateSession and cancelSession destructure
the passthrough ctx value 1 before the basic-auth guard, so a Basic-scheme request
with a SessionId ends in the 500 update_session_failed / cancel_session_failed
envelopes instead of the 200 success the spec demands; the part_000 variant and
the guarded createSession answer 200. -/
theorem c5_basic_passthrough_crash :
    PC.updateSession [] 5 ({ authorization := some "Basic xyz",
                             bodySessionId := some "s1" } : Request) "f" =
      ([], PResp.err 500 50011 "update_session_failed" "f") ∧
    PC.cancelSession [] 5 ({ authorization := some "Basic xyz",
                             bodySessionId := some "s1" } : Request) "f" =
      ([], PResp.err 500 50012 "cancel_session_failed" "f") ∧
    P0.updateSession [] 5 ({ authorization := some "Basic xyz",
                             paramSessionId := some "s1" } : Request) "f" =
      ([], PResp.ok 200 "ok" "f") ∧
    PC.createSession [] 5 ({ authorization := some "Basic xyz",
                             bodySessionId := some "s1" } : Request) "f" "g" =
      ([], PResp.ok 200 "ok" "f") := by decide

/-- C8 counterexample: protectedController.js envelopes always carry a freshly
generated uuid, ignoring the request's correlationid header. -/
theorem c8_counterexample :
    ({ authorization := none, correlationid := some "abc" } : Request).correlationid =
      some "abc" ∧
    respCorrelation (PC.createSession [] 5
      ({ authorization := none, correlationid := some "abc" } : Request) "xyz" "g").2 =
      "xyz" ∧
    "xyz" ≠ "abc" := by decide

/-- C8 (amended): every envelope returned by a part_000 endpoint carries
correlationId = getCorrelationId, which echoes the request's correlationid header
when present and non-empty and otherwise is the freshly generated identifier. -/
theorem c8_correlation_echo (store : Store) (now : Int) (req : Request)
    (fresh genId : String) :
    respCorrelation (P0.createSession store now req fresh genId).2 =
      getCorrelationId req fresh ∧
    respCorrelation (P0.updateSession store now req fresh).2 = getCorrelationId req fresh ∧
    respCorrelation (P0.cancelSession store now req fresh).2 = getCorrelationId req fresh ∧
    respCorrelation (P0.addInstructor store now req fresh genId).2 =
      getCorrelationId req fresh ∧
    respCorrelation (P0.updateInstructor store now req fresh).2 =
      getCorrelationId req fresh ∧
    respCorrelation (P0.getAttendance store now req fresh).2 = getCorrelationId req fresh ∧
    respCorrelation (P0.launchSession store now req fresh).2 = getCorrelationId req fresh ∧
    respCorrelation (P0.getExtendedOptions store now req fresh).2 =
      getCorrelationId req fresh ∧
    (∀ h, req.correlationid = some h → h ≠ "" → getCorrelationId req fresh = h) ∧
    (req.correlationid = none → getCorrelationId req fresh = fresh) := by
  refine ⟨?_, ?_, ?_, ?_, ?_, ?_, ?_, ?_, ?_, ?_⟩
  · cases hv : P0.validateBearerToken store now req.authorization with
    | rejected s c m => simp [P0.createSession, hv, P0.err, respCorrelation]
    | passthrough => simp [P0.createSession, hv, P0.ok, respCorrelation]
    | ctx client => simp [P0.createSession, hv, P0.ok, respCorrelation]
  · cases hv : P0.validateBearerToken store now req.authorization with
    | rejected s c m => simp [P0.updateSession, hv, P0.err, respCorrelation]
    | passthrough => simp [P0.updateSession, hv, P0.ok, respCorrelation]
    | ctx client => simp [P0.updateSession, hv, P0.ok, respCorrelation]
  · cases hv : P0.validateBearerToken store now req.authorization with
    | rejected s c m => simp [P0.cancelSession, hv, P0.err, respCorrelation]
    | passthrough =>
      simp only [P0.cancelSession, hv]
      split <;> simp [P0.ok, P0.err, respCorrelation]
    | ctx client =>
      simp only [P0.cancelSession, hv]
      split <;> (try split) <;> simp [P0.ok, P0.err, respCorrelation]
  · cases hv : P0.validateBearerToken store now req.authorization with
    | rejected s c m => simp [P0.addInstructor, hv, P0.err, respCorrelation]
    | passthrough => simp [P0.addInstructor, hv, P0.ok, respCorrelation]
    | ctx client => simp [P0.addInstructor, hv, P0.ok, respCorrelation]
  · cases hv : P0.validateBearerToken store now req.authorization with
    | rejected s c m => simp [P0.updateInstructor, hv, P0.err, respCorrelation]
    | passthrough => simp [P0.updateInstructor, hv, P0.ok, respCorrelation]
    | ctx client =>
      simp only [P0.updateInstructor, hv]
      split <;> simp [P0.ok, P0.err, respCorrelation]
  · cases hv : P0.validateBearerToken store now req.authorization with
    | rejected s c m => simp [P0.getAttendance, hv, P0.err, respCorrelation]
    | passthrough => simp [P0.getAttendance, hv, P0.okAttendance, respCorrelation]
    | ctx client => simp [P0.getAttendance, hv, P0.okAttendance, respCorrelation]
  · cases hv : P0.validateBearerToken store now req.authorization with
    | rejected s c m => simp [P0.launchSession, hv, P0.err, respCorrelation]
    | passthrough => simp [P0.launchSession, hv, P0.okLaunchSession, respCorrelation]
    | ctx client => simp [P0.launchSession, hv, P0.okLaunchSession, respCorrelation]
  · cases hv : P0.validateBearerToken store now req.authorization with
    | rejected s c m => simp [P0.getExtendedOptions, hv, P0.err, respCorrelation]
    | passthrough => simp [P0.getExtendedOptions, hv, P0.okExtendedOptions, respCorrelation]
    | ctx client => simp [P0.getExtendedOptions, hv, P0.okExtendedOptions, respCorrelation]
  · intro h hh hne
    simp [getCorrelationId, orElseStr, hh, hne]
  · intro hh
    simp [getCorrelationId, orElseStr, hh]

/-- Witness for C8 (amended): with the header set, the part_000 createSession
envelope echoes it. -/
theorem c8_witness :
    respCorrelation (P0.createSession [] 5
      ({ correlationid := some "abc" } : Request) "xyz" "g").2 = "abc" := by
  have h := c8_correlation_echo [] 5 ({ correlationid := some "abc" } : Request) "xyz" "g"
  rw [h.1]
  exact h.2.2.2.2.2.2.2.2.1 "abc" rfl (by decide)

/-- C9: admin reset blanks tokenHits, tokenRotations, tokenExpiresAt,
perEndpointUsage, currentToken, issuedTokens, sessions, instructors and
lastSessionId, but — contrary to the claim and to the code's own comment — keeps
nextTokenTtlSeconds, scope, tokenType and createdAt. -/
theorem c9_reset_keeps_config_fields :
    (Admin.reset true
      [({ clientId := "a", clientSecret := "b", createdAt := some 1,
          currentToken := some "tok", tokenExpiresAt := some (some 5000),
          tokenType := some "Bearer", scope := some "sc",
          issuedTokens := [⟨"tok", 1, 5000, true⟩],
          nextTokenTtlSeconds := some (some 77), tokenHits := 3, tokenRotations := 2,
          perEndpointUsage := [("token", 3)], sessions := [⟨"s1", "active"⟩],
          instructors := [], lastSessionId := some "s1" } : ClientRecord)]
      (some "a") (some "b")).1 =
    [({ clientId := "a", clientSecret := "b", createdAt := some 1,
        currentToken := none, tokenExpiresAt := none,
        tokenType := some "Bearer", scope := some "sc",
        issuedTokens := [], nextTokenTtlSeconds := some (some 77),
        tokenHits := 0, tokenRotations := 0, perEndpointUsage := [],
        sessions := [], instructors := [], lastSessionId := none } : ClientRecord)] := by
  decide
